import Mathlib

/-!
Verification of the productmd location / version-detection core
(`productmd/location.py`, `productmd/version.py`) via a shallow embedding.

JSON documents are modelled by `Json`; Python dictionaries appearing as
typed function arguments are modelled as association lists.  Fallible
Python code is embedded in `Except PyErr`, with `PyErr` distinguishing the
exception classes the embedded code can raise.  Python string/dict
primitives (`in`, subscription, `.values()`, iteration, `int()`) are
modelled by the `py*` helpers below, faithful to CPython semantics on
JSON-decoded values.
-/

/-- JSON values, as produced by `json.load`. -/
inductive Json where
  | null : Json
  | bool : Bool → Json
  | num : Int → Json
  | str : String → Json
  | arr : List Json → Json
  | obj : List (String × Json) → Json

/-- The Python exception classes raised by the embedded code. -/
inductive PyErr where
  | typeError : String → PyErr
  | keyError : String → PyErr
  | valueError : String → PyErr
  | attributeError : String → PyErr
deriving DecidableEq, Repr

deriving instance DecidableEq for Except

/-- Key lookup in a Python dict (modelled as an association list). -/
def jlookup (kvs : List (String × Json)) (k : String) : Option Json :=
  (kvs.find? (fun kv => kv.1 == k)).map (fun kv => kv.2)

/-- Python `s in x` for a string `s` and a JSON-decoded value `x`:
key membership for dicts, element membership for lists, substring test for
strings, `TypeError` otherwise. -/
def pyMem (s : String) : Json → Except PyErr Bool
  | .obj kvs => .ok (kvs.any (fun kv => kv.1 == s))
  | .arr xs => .ok (xs.any (fun x => match x with | .str t => t == s | _ => false))
  | .str t => .ok (pySubList s.data t.data)
  | _ => .error (.typeError "argument is not iterable")
where
  /-- Contiguous-substring test, Python `needle in haystack` on strings. -/
  pySubList : List Char → List Char → Bool
    | n, [] => n.isEmpty
    | n, c :: t => n.isPrefixOf (c :: t) || pySubList n t

/-- Python `x[s]` for a string key: dict lookup (`KeyError` when absent),
`TypeError` on any other JSON value. -/
def pyGetItem (s : String) : Json → Except PyErr Json
  | .obj kvs =>
    match jlookup kvs s with
    | some v => .ok v
    | none => .error (.keyError s)
  | _ => .error (.typeError "indices must be integers")

/-- Python `x.values()`: value list of a dict, `AttributeError` otherwise. -/
def pyValues : Json → Except PyErr (List Json)
  | .obj kvs => .ok (kvs.map (fun kv => kv.2))
  | _ => .error (.attributeError "values")

/-- Python iteration `for y in x` over a JSON-decoded value: list elements,
characters of a string (as one-character strings), keys of a dict, and
`TypeError` for non-iterables. -/
def pyIterate : Json → Except PyErr (List Json)
  | .arr xs => .ok xs
  | .str s => .ok (s.data.map (fun ch => Json.str (String.mk [ch])))
  | .obj kvs => .ok (kvs.map (fun kv => Json.str kv.1))
  | _ => .error (.typeError "object is not iterable")

/-- Numeric value of an ASCII decimal digit. -/
def digitVal (c : Char) : Option Nat :=
  if '0' ≤ c ∧ c ≤ '9' then some (c.toNat - '0'.toNat) else none

/-- Digit tail of a Python integer literal: digits with single underscores
allowed between digits (CPython `int(str)` grammar). -/
def parseDigitsCore : List Char → Nat → Option Nat
  | [], acc => some acc
  | '_' :: c :: rest, acc =>
    match digitVal c with
    | some d => parseDigitsCore rest (acc * 10 + d)
    | none => none
  | ['_'], _ => none
  | c :: rest, acc =>
    match digitVal c with
    | some d => parseDigitsCore rest (acc * 10 + d)
    | none => none

/-- Unsigned part of a Python integer literal: leading digit required. -/
def parseUnsigned : List Char → Option Nat
  | c :: rest =>
    match digitVal c with
    | some d => parseDigitsCore rest d
    | none => none
  | [] => none

/-- Python `int(s)` on a string: surrounding whitespace stripped, optional
sign, decimal digits with single interior underscores. -/
def pyIntOfString (s : String) : Except PyErr Int :=
  let cs := (((s.data.dropWhile Char.isWhitespace).reverse.dropWhile Char.isWhitespace).reverse)
  match cs with
  | '-' :: rest =>
    match parseUnsigned rest with
    | some n => .ok (-(n : Int))
    | none => .error (.valueError ("invalid literal for int: " ++ s))
  | '+' :: rest =>
    match parseUnsigned rest with
    | some n => .ok ((n : Int))
    | none => .error (.valueError ("invalid literal for int: " ++ s))
  | _ =>
    match parseUnsigned cs with
    | some n => .ok ((n : Int))
    | none => .error (.valueError ("invalid literal for int: " ++ s))

/-- Python `int(x)` on a JSON-decoded value. -/
def pyIntOfJson : Json → Except PyErr Int
  | .num n => .ok n
  | .bool b => .ok (if b then 1 else 0)
  | .str s => pyIntOfString s
  | _ => .error (.typeError "int() argument")

/- ### Version model (`productmd/version.py`) -/

/-- A `(major, minor)` version tuple. -/
abbrev Version := Int × Int

def VERSION_1_0 : Version := (1, 0)
def VERSION_1_1 : Version := (1, 1)
def VERSION_1_2 : Version := (1, 2)
def VERSION_2_0 : Version := (2, 0)
def CURRENT_VERSION : Version := VERSION_1_2
def MIN_LOCATION_VERSION : Version := VERSION_2_0

/-- Python `s.split(".")`, specialized to the single-character separator
used by `string_to_version`. -/
def splitOnDot : List Char → List (List Char)
  | [] => [[]]
  | c :: rest =>
    let r := splitOnDot rest
    if c = '.' then [] :: r
    else
      match r with
      | h :: t => (c :: h) :: t
      | [] => [[c]]

/-- `string_to_version`: split on `"."`, parse the first two components as
ints; any `ValueError`/`IndexError` is reported as a format `ValueError`. -/
def string_to_version (s : String) : Except PyErr Version :=
  match (splitOnDot s.data).map String.mk with
  | p0 :: p1 :: _ =>
    match (pyIntOfString p0).toOption, (pyIntOfString p1).toOption with
    | some a, some b => .ok (a, b)
    | _, _ => .error (.valueError ("Invalid version string: " ++ s))
  | _ => .error (.valueError ("Invalid version string: " ++ s))

/-- `is_v1`: major version equal to 1 (tuple argument form). -/
def is_v1 (v : Version) : Bool := v.1 == 1

/-- `is_v2`: major version at least 2 (tuple argument form). -/
def is_v2 (v : Version) : Bool := decide (2 ≤ v.1)

/-- `is_distributed`: delegates to `is_v2`. -/
def is_distributed (v : Version) : Bool := is_v2 v

/-- Python tuple comparison `a >= b` on `(major, minor)` pairs
(lexicographic). -/
def pyTupleGe (a b : Version) : Bool :=
  if b.1 < a.1 then true
  else if a.1 = b.1 then decide (b.2 ≤ a.2)
  else false

/-- `supports_location_objects`: `version >= MIN_LOCATION_VERSION` under
Python tuple ordering. -/
def supports_location_objects (v : Version) : Bool :=
  pyTupleGe v MIN_LOCATION_VERSION

/- ### Version/Location detector (`detect_version_from_data` and helpers) -/

/-- Dict key-presence test, `"location" in rpm` after an `isinstance(-, dict)`
guard: false on non-dicts. -/
def objHasKey (k : String) : Json → Bool
  | .obj kvs => kvs.any (fun kv => kv.1 == k)
  | _ => false

/-- Inner `rpms` traversal, srpm level: a dict whose values include a dict
with a `"location"` key. -/
def srpmHasLocation : Json → Bool
  | .obj kvs => kvs.any (fun kv => objHasKey "location" kv.2)
  | _ => false

/-- Inner `rpms` traversal, arch level. -/
def archHasLocationRpms : Json → Bool
  | .obj kvs => kvs.any (fun kv => srpmHasLocation kv.2)
  | _ => false

/-- Inner `rpms` traversal, variant level: variant → arch → srpm → rpm,
with an `isinstance(-, dict)` guard at every level. -/
def variantHasLocationRpms : Json → Bool
  | .obj kvs => kvs.any (fun kv => archHasLocationRpms kv.2)
  | _ => false

/-- Inner `images`/`extra_files` traversal, arch level: a list holding a
dict with a `"location"` key. -/
def archListHasLocation : Json → Bool
  | .arr xs => xs.any (objHasKey "location")
  | _ => false

/-- Inner `images`/`extra_files` traversal, variant level: variant dict
whose arch values are lists of entry dicts. -/
def variantHasLocationImages : Json → Bool
  | .obj kvs => kvs.any (fun kv => archListHasLocation kv.2)
  | _ => false

/-- `variants` traversal, path-type level: a dict whose arch-path values
include a dict with a `"url"` key. -/
def pathTypeHasUrl : Json → Bool
  | .obj kvs => kvs.any (fun kv => objHasKey "url" kv.2)
  | _ => false

/-- Loop over the values of `payload["variants"]`: for each dict variant
with a `"paths"` key, `variant["paths"].values()` is scanned for a path
descriptor with a `"url"` key; `.values()` on a non-dict `paths` raises. -/
def variantsHasUrl : List Json → Except PyErr Bool
  | [] => .ok false
  | v :: rest =>
    match v with
    | .obj kvs =>
      match jlookup kvs "paths" with
      | some paths =>
        match pyValues paths with
        | .error e => .error e
        | .ok pvals =>
          if pvals.any pathTypeHasUrl then .ok true else variantsHasUrl rest
      | none => variantsHasUrl rest
    | _ => variantsHasUrl rest

/-- Shared shape of the `rpms` / `images` / `extra_files` blocks of
`_has_location_in_payload`: key-presence test, subscription, `.values()`
(raising on a non-dict container), then the pure inner traversal `f`. -/
def checkKeyedDict (key : String) (f : Json → Bool) (payload : Json) : Except PyErr Bool :=
  match pyMem key payload with
  | .error e => .error e
  | .ok false => .ok false
  | .ok true =>
    match pyGetItem key payload with
    | .error e => .error e
    | .ok v =>
      match pyValues v with
      | .error e => .error e
      | .ok vs => .ok (vs.any f)

/-- The `variants` block of `_has_location_in_payload`. -/
def checkVariants (payload : Json) : Except PyErr Bool :=
  match pyMem "variants" payload with
  | .error e => .error e
  | .ok false => .ok false
  | .ok true =>
    match pyGetItem "variants" payload with
    | .error e => .error e
    | .ok v =>
      match pyValues v with
      | .error e => .error e
      | .ok vs => variantsHasUrl vs

/-- `_has_location_in_payload`: scan `rpms`, `images`, `extra_files`, then
`variants`, in source order, short-circuiting on the first hit. -/
def has_location_in_payload (payload : Json) : Except PyErr Bool :=
  match checkKeyedDict "rpms" variantHasLocationRpms payload with
  | .error e => .error e
  | .ok true => .ok true
  | .ok false =>
    match checkKeyedDict "images" variantHasLocationImages payload with
    | .error e => .error e
    | .ok true => .ok true
    | .ok false =>
      match checkKeyedDict "extra_files" variantHasLocationImages payload with
      | .error e => .error e
      | .ok true => .ok true
      | .ok false => checkVariants payload

/-- `"rpms" in payload or "images" in payload or "compose" in payload`,
with Python short-circuit evaluation. -/
def legacyKeyCheck (payload : Json) : Except PyErr Bool :=
  match pyMem "rpms" payload with
  | .error e => .error e
  | .ok true => .ok true
  | .ok false =>
    match pyMem "images" payload with
    | .error e => .error e
    | .ok true => .ok true
    | .ok false => pyMem "compose" payload

/-- `data["header"]["version"]` fed to `string_to_version`, which calls
`.split` on its argument: a non-string raises `AttributeError`. -/
def pyStringToVersion : Json → Except PyErr Version
  | .str s => string_to_version s
  | _ => .error (.attributeError "split")

/-- Structural-inference tail of `detect_version_from_data`, reached when
no explicit header version tag was found. -/
def detectFromPayload (data : List (String × Json)) : Except PyErr Version :=
  match jlookup data "payload" with
  | some payload =>
    (match has_location_in_payload payload with
     | .error e => .error e
     | .ok true => .ok VERSION_2_0
     | .ok false =>
       match legacyKeyCheck payload with
       | .error e => .error e
       | .ok true => .ok VERSION_1_0
       | .ok false => .error (.valueError "Cannot determine metadata version from data"))
  | none => .error (.valueError "Cannot determine metadata version from data")

/-- `detect_version_from_data`: explicit `header.version` tag when present,
otherwise structural inference over the payload. -/
def detect_version_from_data (data : List (String × Json)) : Except PyErr Version :=
  match jlookup data "header" with
  | some hd =>
    (match pyMem "version" hd with
     | .error e => .error e
     | .ok true =>
       (match pyGetItem "version" hd with
        | .error e => .error e
        | .ok v => pyStringToVersion v)
     | .ok false => detectFromPayload data)
  | none => detectFromPayload data

example : detect_version_from_data [("header", .obj [("version", .str "1.2")])] = .ok (1, 2) := rfl
example : detect_version_from_data
    [("header", .obj [("version", .str "2.0")]),
     ("payload", .obj [("rpms", .obj [])])] = .ok (2, 0) := rfl
example : detect_version_from_data
    [("payload", .obj [("compose", .obj []), ("rpms", .obj [])])] = .ok (1, 0) := rfl
example : detect_version_from_data
    [("payload", .obj [("images", .obj [("V", .obj [("x86_64",
      .arr [.obj [("location", .obj [])]])])])])] = .ok (2, 0) := rfl
example : detect_version_from_data [("something", .str "else")]
    = .error (.valueError "Cannot determine metadata version from data") := rfl
example : detect_version_from_data [("payload", .obj [("rpms", .num 5)])]
    = .error (.attributeError "values") := rfl

/- ### Location data model (`productmd/location.py`) -/

/-- Python `s.startswith(p)`. -/
def strStartsWith (s p : String) : Bool := p.data.isPrefixOf s.data

/-- Python `needle in haystack` on strings (contiguous substring). -/
def pyContains (needle hay : String) : Bool := pyMem.pySubList needle.data hay.data

/-- A character matched by the regex class `[a-f0-9]`. -/
def hexChar (c : Char) : Bool := ('a' ≤ c && c ≤ 'f') || ('0' ≤ c && c ≤ '9')

/-- Strip an expected leading character sequence, returning the remainder
on success (the functional form of a literal-prefix regex fragment). -/
def stripPre : List Char → List Char → Option (List Char)
  | [], s => some s
  | c :: p, s =>
    match s with
    | [] => none
    | x :: rest => if c == x then stripPre p rest else none

/-- `CHECKSUM_RE` matching: `^(sha256|sha512|sha1|md5):(?P<digest>[a-f0-9]+)$`.
None of the four algorithm names is a prefix of another (followed by `:`),
so the alternation is deterministic. -/
def checksumMatch (s : String) : Option (String × String) :=
  match ["sha256", "sha512", "sha1", "md5"].find? (fun a => (stripPre (a ++ ":").data s.data).isSome) with
  | some a =>
    (match stripPre (a ++ ":").data s.data with
     | some digest =>
       if digest.isEmpty then none
       else if digest.all hexChar then some (a, String.mk digest) else none
     | none => none)
  | none => none

/-- `parse_checksum`: `CHECKSUM_RE` match or a format `ValueError`. -/
def parse_checksum (checksum : String) : Except PyErr (String × String) :=
  match checksumMatch checksum with
  | some p => .ok p
  | none => .error (.valueError ("Invalid checksum format: " ++ checksum))

/-- The named groups of a successful `OCI_REFERENCE_RE` match. -/
structure OciMatch where
  registry : String
  repository : String
  tag : Option String
  digest : String
deriving DecidableEq, Repr

/-- The trailing `(@(?P<digest>sha256:[a-f0-9]{64}))$` part of
`OCI_REFERENCE_RE`: the whole remainder must be `@sha256:` plus exactly 64
lowercase-hex characters; the captured digest includes the `sha256:`. -/
def ociDigestMatch (cs : List Char) : Option String :=
  if ("@sha256:").data.isPrefixOf cs then
    let hex := cs.drop 8
    if hex.length == 64 && hex.all hexChar then some (String.mk (("sha256:").data ++ hex))
    else none
  else none

/-- `OCI_REFERENCE_RE` matching:
`^oci://(?P<registry>[^/]+)/(?P<repository>[^:@]+)(:(?P<tag>[^@]+))?(@(?P<digest>sha256:[a-f0-9]{64}))$`.
Every quantified class is delimited by a character it excludes, so the
regex backtracking is deterministic and equals this direct decomposition. -/
def ociMatch (s : String) : Option OciMatch :=
  if ("oci://").data.isPrefixOf s.data then
    let rest := s.data.drop 6
    let registry := rest.takeWhile (fun c => c != '/')
    if registry.isEmpty then none
    else
      match rest.drop registry.length with
      | '/' :: rest2 =>
        let repo := rest2.takeWhile (fun c => c != ':' && c != '@')
        if repo.isEmpty then none
        else
          match rest2.drop repo.length with
          | ':' :: rest4 =>
            let tag := rest4.takeWhile (fun c => c != '@')
            if tag.isEmpty then none
            else
              match ociDigestMatch (rest4.drop tag.length) with
              | some d => some ⟨String.mk registry, String.mk repo, some (String.mk tag), d⟩
              | none => none
          | '@' :: rest4 =>
            (match ociDigestMatch ('@' :: rest4) with
             | some d => some ⟨String.mk registry, String.mk repo, none, d⟩
             | none => none)
          | _ => none
      | _ => none
  else none

/-- `FileEntry` record: one file inside an OCI image location.  Absent
(`None`) field values are modelled as `Option.none`. -/
structure FileEntry where
  file : Option String
  size : Option Int
  checksum : Option String
  layer_digest : Option String
deriving DecidableEq, Repr

/-- `Location` record.  `__init__` replaces a falsy `contents` argument by
`[]`, so the field itself is a plain list. -/
structure Location where
  url : Option String
  size : Option Int
  checksum : Option String
  local_path : Option String
  contents : List FileEntry
deriving DecidableEq, Repr

/-- `Location.__init__`: plain field assignment, `contents or []`; there is
no exception path, so construction is a total function. -/
def Location.init (url : Option String) (size : Option Int) (checksum : Option String)
    (local_path : Option String) (contents : Option (List FileEntry)) : Location :=
  { url := url, size := size, checksum := checksum, local_path := local_path,
    contents := contents.getD [] }

example : Location.init (some "u") none none none (some []) =
    { url := some "u", size := none, checksum := none, local_path := none, contents := [] } := rfl
example : Location.init none none none none (some [⟨none, none, none, none⟩]) =
    { url := none, size := none, checksum := none, local_path := none,
      contents := [⟨none, none, none, none⟩] } := rfl

/-- `Location.is_remote`: falsy url (absent or empty) is not remote;
otherwise a prefix test against the three remote schemes. -/
def Location.is_remote (L : Location) : Bool :=
  match L.url with
  | none => false
  | some u =>
    if u = "" then false
    else strStartsWith u "https://" || strStartsWith u "http://" || strStartsWith u "oci://"

/-- `Location.is_https`. -/
def Location.is_https (L : Location) : Bool :=
  match L.url with
  | none => false
  | some u => if u = "" then false else strStartsWith u "https://"

/-- `Location.is_http`. -/
def Location.is_http (L : Location) : Bool :=
  match L.url with
  | none => false
  | some u => if u = "" then false else strStartsWith u "http://"

/-- `Location.is_oci`. -/
def Location.is_oci (L : Location) : Bool :=
  match L.url with
  | none => false
  | some u => if u = "" then false else strStartsWith u "oci://"

/-- `Location.is_local`: `not self.is_remote`. -/
def Location.is_local (L : Location) : Bool := ! L.is_remote

/-- `Location.oci_registry`: regex group on OCI urls, absent otherwise. -/
def Location.oci_registry (L : Location) : Option String :=
  if L.is_oci then
    match L.url with
    | some u => (ociMatch u).map OciMatch.registry
    | none => none
  else none

/-- `Location.oci_repository`. -/
def Location.oci_repository (L : Location) : Option String :=
  if L.is_oci then
    match L.url with
    | some u => (ociMatch u).map OciMatch.repository
    | none => none
  else none

/-- `Location.oci_tag`: absent both on a failed match and when the optional
tag group did not participate. -/
def Location.oci_tag (L : Location) : Option String :=
  if L.is_oci then
    match L.url with
    | some u =>
      (match ociMatch u with
       | some m => m.tag
       | none => none)
    | none => none
  else none

/-- `Location.oci_digest`. -/
def Location.oci_digest (L : Location) : Option String :=
  if L.is_oci then
    match L.url with
    | some u => (ociMatch u).map OciMatch.digest
    | none => none
  else none

/- ### Validation.

`productmd.common.MetadataBase` is not among the sources, so its small
helpers are modelled from the spec. -/

/-- Modelled from the spec: `MetadataBase._assert_type(field, [str])` from
the missing `productmd/common.py` — an invariant violation (wrong type,
here: the field is absent) is raised at validation time. -/
def assertStr (field : String) : Option String → Except PyErr String
  | some s => .ok s
  | none => .error (.typeError (field ++ " must be of type str"))

/-- Modelled from the spec: `MetadataBase._assert_type(field, [int])` from
the missing `productmd/common.py`. -/
def assertInt (field : String) : Option Int → Except PyErr Int
  | some n => .ok n
  | none => .error (.typeError (field ++ " must be of type int"))

/-- Modelled from the spec: `MetadataBase._assert_not_blank(field)` from
the missing `productmd/common.py` — rejects a falsy (empty) string. -/
def assertNotBlank (field : String) (s : String) : Except PyErr Unit :=
  if s = "" then .error (.valueError (field ++ " must not be blank")) else .ok ()

/-- `FileEntry._validate_file`. -/
def FileEntry.validate_file (e : FileEntry) : Except PyErr Unit :=
  match assertStr "file" e.file with
  | .error err => .error err
  | .ok f =>
    match assertNotBlank "file" f with
    | .error err => .error err
    | .ok _ =>
      if strStartsWith f "/" then
        .error (.valueError ("FileEntry: file must be a relative path: " ++ f))
      else .ok ()

/-- `FileEntry._validate_size`. -/
def FileEntry.validate_size (e : FileEntry) : Except PyErr Unit :=
  match assertInt "size" e.size with
  | .error err => .error err
  | .ok n =>
    if n < 0 then .error (.valueError "FileEntry: size must be non-negative")
    else .ok ()

/-- `FileEntry._validate_checksum`. -/
def FileEntry.validate_checksum (e : FileEntry) : Except PyErr Unit :=
  match assertStr "checksum" e.checksum with
  | .error err => .error err
  | .ok c =>
    match assertNotBlank "checksum" c with
    | .error err => .error err
    | .ok _ =>
      if (checksumMatch c).isSome then .ok ()
      else .error (.valueError ("FileEntry: checksum must be in algorithm:hexdigest format: " ++ c))

/-- `FileEntry._validate_layer_digest`. -/
def FileEntry.validate_layer_digest (e : FileEntry) : Except PyErr Unit :=
  match assertStr "layer_digest" e.layer_digest with
  | .error err => .error err
  | .ok d =>
    match assertNotBlank "layer_digest" d with
    | .error err => .error err
    | .ok _ =>
      if strStartsWith d "sha256:" then .ok ()
      else .error (.valueError ("FileEntry: layer_digest must start with sha256: " ++ d))

/-- Modelled from the spec: `MetadataBase.validate` (missing
`productmd/common.py`) runs every `_validate_*` check of the entity and
reports the first violation; validation succeeds only when all invariants
hold.  The spec leaves the order of the checks unspecified. -/
def FileEntry.validate (e : FileEntry) : Except PyErr Unit :=
  match e.validate_file with
  | .error err => .error err
  | .ok _ =>
    match e.validate_size with
    | .error err => .error err
    | .ok _ =>
      match e.validate_checksum with
      | .error err => .error err
      | .ok _ => e.validate_layer_digest

/-- `Location._validate_url`: type/blank assertion, then no absolute path,
then the OCI digest-marker check — which tests only for the presence of
the literal substring `"@sha256:"`. -/
def Location.validate_url (L : Location) : Except PyErr Unit :=
  match assertStr "url" L.url with
  | .error e => .error e
  | .ok u =>
    match assertNotBlank "url" u with
    | .error e => .error e
    | .ok _ =>
      if strStartsWith u "/" then
        .error (.valueError ("Location: url must not be an absolute path: " ++ u))
      else if L.is_oci then
        if pyContains "@sha256:" u then .ok ()
        else .error (.valueError ("Location: OCI URLs must include @sha256: digest for immutability: " ++ u))
      else .ok ()

/-- `Location._validate_size`. -/
def Location.validate_size (L : Location) : Except PyErr Unit :=
  match assertInt "size" L.size with
  | .error e => .error e
  | .ok n =>
    if n < 0 then .error (.valueError "Location: size must be non-negative")
    else .ok ()

/-- `Location._validate_checksum`. -/
def Location.validate_checksum (L : Location) : Except PyErr Unit :=
  match assertStr "checksum" L.checksum with
  | .error e => .error e
  | .ok c =>
    match assertNotBlank "checksum" c with
    | .error e => .error e
    | .ok _ =>
      if (checksumMatch c).isSome then .ok ()
      else .error (.valueError ("Location: checksum must be in algorithm:hexdigest format: " ++ c))

/-- `Location._validate_local_path`. -/
def Location.validate_local_path (L : Location) : Except PyErr Unit :=
  match assertStr "local_path" L.local_path with
  | .error e => .error e
  | .ok p =>
    match assertNotBlank "local_path" p with
    | .error e => .error e
    | .ok _ =>
      if strStartsWith p "/" then
        .error (.valueError ("Location: local_path must be a relative path: " ++ p))
      else .ok ()

/-- The entry loop of `Location._validate_contents`: each element is
validated in turn (the `isinstance(entry, FileEntry)` guard is enforced by
the embedding's types). -/
def validateEntries : List FileEntry → Except PyErr Unit
  | [] => .ok ()
  | e :: rest =>
    match e.validate with
    | .error err => .error err
    | .ok _ => validateEntries rest

/-- `Location._validate_contents`: non-empty contents require an OCI url;
every entry must itself validate. -/
def Location.validate_contents (L : Location) : Except PyErr Unit :=
  if !L.contents.isEmpty && !L.is_oci then
    .error (.valueError "Location: contents can only be used with OCI URLs")
  else validateEntries L.contents

/-- Modelled from the spec: `MetadataBase.validate` (missing
`productmd/common.py`) runs every `_validate_*` check of the entity,
fail-fast; success means all invariants hold. -/
def Location.validate (L : Location) : Except PyErr Unit :=
  match L.validate_url with
  | .error e => .error e
  | .ok _ =>
    match L.validate_size with
    | .error e => .error e
    | .ok _ =>
      match L.validate_checksum with
      | .error e => .error e
      | .ok _ =>
        match L.validate_local_path with
        | .error e => .error e
        | .ok _ => L.validate_contents

/- ### Serialization -/

/-- Serialized form of an optional string field (`None` becomes `null`). -/
def jsonOfOptStr : Option String → Json
  | some s => .str s
  | none => .null

/-- Serialized form of an optional int field. -/
def jsonOfOptInt : Option Int → Json
  | some n => .num n
  | none => .null

/-- Python attribute assignment from a JSON value into a `str`-typed field:
a non-string value makes the later `_assert_type` check fail, which the
embedding renders by storing `none`. -/
def jsonToOptStr : Json → Option String
  | .str s => some s
  | _ => none

/-- `FileEntry.serialize`: validate, then the four-field dict. -/
def FileEntry.serialize (e : FileEntry) : Except PyErr Json :=
  match e.validate with
  | .error err => .error err
  | .ok _ =>
    .ok (.obj [("file", jsonOfOptStr e.file), ("size", jsonOfOptInt e.size),
               ("checksum", jsonOfOptStr e.checksum), ("layer_digest", jsonOfOptStr e.layer_digest)])

/-- `FileEntry.from_dict` (fresh entry fed through `deserialize`): required
keys, `int()` coercion of the size, then validation. -/
def FileEntry.from_dict (d : Json) : Except PyErr FileEntry :=
  match pyGetItem "file" d with
  | .error e => .error e
  | .ok f =>
    match pyGetItem "size" d with
    | .error e => .error e
    | .ok sz =>
      match pyIntOfJson sz with
      | .error e => .error e
      | .ok n =>
        match pyGetItem "checksum" d with
        | .error e => .error e
        | .ok c =>
          match pyGetItem "layer_digest" d with
          | .error e => .error e
          | .ok ld =>
            match FileEntry.validate ⟨jsonToOptStr f, some n, jsonToOptStr c, jsonToOptStr ld⟩ with
            | .error err => .error err
            | .ok _ => .ok ⟨jsonToOptStr f, some n, jsonToOptStr c, jsonToOptStr ld⟩

/-- The `contents` serialization loop of `Location.serialize`. -/
def serializeEntries : List FileEntry → Except PyErr (List Json)
  | [] => .ok []
  | e :: rest =>
    match e.serialize with
    | .error err => .error err
    | .ok d =>
      match serializeEntries rest with
      | .error err => .error err
      | .ok ds => .ok (d :: ds)

/-- `Location.serialize`: validate, four flat fields, and a `contents` key
only when contents is non-empty. -/
def Location.serialize (L : Location) : Except PyErr Json :=
  match L.validate with
  | .error e => .error e
  | .ok _ =>
    if L.contents.isEmpty then
      .ok (.obj [("url", jsonOfOptStr L.url), ("size", jsonOfOptInt L.size),
                 ("checksum", jsonOfOptStr L.checksum), ("local_path", jsonOfOptStr L.local_path)])
    else
      match serializeEntries L.contents with
      | .error err => .error err
      | .ok ds =>
        .ok (.obj [("url", jsonOfOptStr L.url), ("size", jsonOfOptInt L.size),
                   ("checksum", jsonOfOptStr L.checksum), ("local_path", jsonOfOptStr L.local_path),
                   ("contents", .arr ds)])

/-- The `contents` deserialization loop of `Location.deserialize`. -/
def fromDictEntries : List Json → Except PyErr (List FileEntry)
  | [] => .ok []
  | d :: rest =>
    match FileEntry.from_dict d with
    | .error err => .error err
    | .ok e =>
      match fromDictEntries rest with
      | .error err => .error err
      | .ok es => .ok (e :: es)

/-- The optional-`contents` part of `Location.deserialize`: when the key is
present its value is iterated (Python `for entry_data in data["contents"]`)
and each item goes through `FileEntry.from_dict`. -/
def contentsFromDict : Json → Except PyErr (List FileEntry)
  | .obj kvs =>
    (match jlookup kvs "contents" with
     | some cv =>
       (match pyIterate cv with
        | .error err => .error err
        | .ok items => fromDictEntries items)
     | none => .ok [])
  | _ => .error (.typeError "argument is not a dict")

/-- `Location.from_dict` (fresh instance fed through `deserialize`):
required flat keys, `int()` coercion of the size, iteration over an
optional `contents` key, then validation. -/
def Location.from_dict (d : Json) : Except PyErr Location :=
  match pyGetItem "url" d with
  | .error e => .error e
  | .ok u =>
    match pyGetItem "size" d with
    | .error e => .error e
    | .ok sz =>
      match pyIntOfJson sz with
      | .error e => .error e
      | .ok n =>
        match pyGetItem "checksum" d with
        | .error e => .error e
        | .ok c =>
          match pyGetItem "local_path" d with
          | .error e => .error e
          | .ok lp =>
            match contentsFromDict d with
            | .error e => .error e
            | .ok cs =>
              match Location.validate ⟨jsonToOptStr u, some n, jsonToOptStr c, jsonToOptStr lp, cs⟩ with
              | .error err => .error err
              | .ok _ => .ok ⟨jsonToOptStr u, some n, jsonToOptStr c, jsonToOptStr lp, cs⟩

/- ### Derived operations -/

/-- Python `base_url.rstrip("/")`: all trailing slashes removed. -/
def pyRstripSlash (s : String) : String :=
  String.mk ((s.data.reverse.dropWhile (fun c => c == '/')).reverse)

/-- Python f-string rendering of an optional string (`None` prints as
`"None"`). -/
def pyStrOfOpt : Option String → String
  | some s => s
  | none => "None"

/-- `Location.with_remote_url`: a new Location whose url joins the
slash-stripped base to `local_path`; contents is passed as a copy when
non-empty, `None` otherwise, and re-coerced by `__init__`. -/
def Location.with_remote_url (L : Location) (base_url : String) : Location :=
  Location.init (some (pyRstripSlash base_url ++ "/" ++ pyStrOfOpt L.local_path))
    L.size L.checksum L.local_path
    (if L.contents.isEmpty then none else some L.contents)

/- ### Equality and hashing -/

/-- `FileEntry.__eq__`: all four fields. -/
def FileEntry.pyEq (a b : FileEntry) : Bool :=
  a.file == b.file && a.size == b.size && a.checksum == b.checksum
    && a.layer_digest == b.layer_digest

/-- Python list equality on `FileEntry` lists: element-wise `__eq__`. -/
def feListEq : List FileEntry → List FileEntry → Bool
  | [], [] => true
  | a :: as, b :: bs => FileEntry.pyEq a b && feListEq as bs
  | _, _ => false

/-- `Location.__eq__`: all five fields, contents element-wise. -/
def Location.pyEq (a b : Location) : Bool :=
  a.url == b.url && a.size == b.size && a.checksum == b.checksum
    && a.local_path == b.local_path && feListEq a.contents b.contents

/-- `Location.__hash__` hashes `(url, size, checksum, local_path)`; the
embedding models the hash by that key tuple itself — Python's `hash` is a
deterministic function of it, so equal keys yield equal hashes, and
Locations differing elsewhere collide. -/
def Location.hashKey (L : Location) :
    Option String × Option Int × Option String × Option String :=
  (L.url, L.size, L.checksum, L.local_path)

/- ### Sanity checks against the reference test suite -/

example : parse_checksum ("sha256:" ++ String.mk (List.replicate 64 'a'))
    = .ok ("sha256", String.mk (List.replicate 64 'a')) := by decide
example : parse_checksum "invalid" = .error (.valueError "Invalid checksum format: invalid") := by decide
example : parse_checksum "sha256" = .error (.valueError "Invalid checksum format: sha256") := by decide
example : parse_checksum "sha999:abcd" = .error (.valueError "Invalid checksum format: sha999:abcd") := by decide
example : (checksumMatch "sha1:ab").isSome = true := by decide
example : (checksumMatch "sha256:AB").isSome = false := by decide

example : ociMatch ("oci://quay.io/fedora/rpms:bash@sha256:" ++ String.mk (List.replicate 64 'a'))
    = some ⟨"quay.io", "fedora/rpms", some "bash", "sha256:" ++ String.mk (List.replicate 64 'a')⟩ := by decide
example : ociMatch ("oci://registry.example.com/namespace/image@sha256:" ++ String.mk (List.replicate 64 'b'))
    = some ⟨"registry.example.com", "namespace/image", none,
        "sha256:" ++ String.mk (List.replicate 64 'b')⟩ := by decide
example : ociMatch "oci://quay.io/fedora/rpms:bash" = none := by decide
example : ociMatch ("https://quay.io/fedora/rpms@sha256:" ++ String.mk (List.replicate 64 'a')) = none := by decide

example :
    Location.validate
      ⟨some "/absolute/path/to/file.rpm", some 1000,
       some ("sha256:" ++ String.mk (List.replicate 64 'a')), some "path/to/file.rpm", []⟩
      = .error (.valueError "Location: url must not be an absolute path: /absolute/path/to/file.rpm") := by decide

example :
    Location.validate
      ⟨some "https://example.com/file.rpm", some 1000,
       some ("sha256:" ++ String.mk (List.replicate 64 'a')), some "path/to/file.rpm", []⟩
      = .ok () := by decide

example :
    Location.validate
      ⟨some "oci://quay.io/fedora/rpms:bash", some 1000,
       some ("sha256:" ++ String.mk (List.replicate 64 'a')), some "path/to/file.rpm", []⟩
      = .error (.valueError
          "Location: OCI URLs must include @sha256: digest for immutability: oci://quay.io/fedora/rpms:bash") := by
  decide

example :
    Location.validate
      ⟨some "https://example.com/file.rpm", some 1000,
       some ("sha256:" ++ String.mk (List.replicate 64 'a')), some "path/to/file.rpm",
       [⟨some "test.txt", some 100, some ("sha256:" ++ String.mk (List.replicate 64 'b')),
         some ("sha256:" ++ String.mk (List.replicate 64 'b'))⟩]⟩
      = .error (.valueError "Location: contents can only be used with OCI URLs") := by decide

example :
    (Location.with_remote_url
      ⟨some "Server/x86_64/os/Packages/b/bash.rpm", some 1000,
       some ("sha256:" ++ String.mk (List.replicate 64 'a')),
       some "Server/x86_64/os/Packages/b/bash.rpm", []⟩
      "https://cdn.example.com/compose").url
      = some "https://cdn.example.com/compose/Server/x86_64/os/Packages/b/bash.rpm" := by decide

example : string_to_version "2.0" = .ok (2, 0) := rfl

/- ### Helper lemmas -/

theorem isPrefixOf_cons_iff {a : Char} {as l : List Char} :
    List.isPrefixOf (a :: as) l = true ↔ ∃ t, l = a :: t ∧ List.isPrefixOf as t = true := by
  cases l with
  | nil => simp [List.isPrefixOf]
  | cons b t =>
    simp only [List.isPrefixOf, Bool.and_eq_true, beq_iff_eq, List.cons.injEq]
    constructor
    · rintro ⟨rfl, h2⟩
      exact ⟨t, ⟨rfl, rfl⟩, h2⟩
    · rintro ⟨t2, ⟨rfl, rfl⟩, h2⟩
      exact ⟨rfl, h2⟩

theorem prefixComparable :
    ∀ (l p q : List Char), List.isPrefixOf p l = true → List.isPrefixOf q l = true →
      List.isPrefixOf p q = true ∨ List.isPrefixOf q p = true := by
  intro l
  induction l with
  | nil =>
    intro p q hp hq
    cases p with
    | nil => left; simp
    | cons a as => simp [List.isPrefixOf] at hp
  | cons c t ih =>
    intro p q hp hq
    cases p with
    | nil => left; simp
    | cons a as =>
      cases q with
      | nil => right; simp
      | cons b bs =>
        rw [isPrefixOf_cons_iff] at hp hq
        obtain ⟨t1, ht1, hp'⟩ := hp
        obtain ⟨t2, ht2, hq'⟩ := hq
        injection ht1 with ha ht1'
        injection ht2 with hb ht2'
        subst ha
        subst hb
        subst ht1'
        subst ht2'
        rcases ih as bs hp' hq' with h | h
        · left; simp [List.isPrefixOf, h]
        · right; simp [List.isPrefixOf, h]

/- ### C6: is_distributed / supports_location_objects -/

/-- The spec's "lexicographically at least `b`" relation on version tuples
(`a ≥ b`), stated independently of the code's comparison. -/
def specLexGe (a b : Version) : Prop := b.1 < a.1 ∨ (b.1 = a.1 ∧ b.2 ≤ a.2)

/-- C6: for every version tuple with non-negative components,
`is_distributed` and `supports_location_objects` return the same boolean,
and both hold exactly when the tuple is lexicographically at least
`(2, 0)`. -/
theorem distributed_iff_supports_location_objects (ma mi : Int)
    (h1 : 0 ≤ ma) (h2 : 0 ≤ mi) :
    is_distributed (ma, mi) = supports_location_objects (ma, mi) ∧
    (is_distributed (ma, mi) = true ↔ specLexGe (ma, mi) VERSION_2_0) ∧
    (supports_location_objects (ma, mi) = true ↔ specLexGe (ma, mi) VERSION_2_0) := by
  unfold is_distributed is_v2 supports_location_objects pyTupleGe specLexGe
      MIN_LOCATION_VERSION VERSION_2_0
  simp only []
  split_ifs with hlt heq
  · simp; omega
  · simp; omega
  · simp; omega

/-- C6 witness: instantiation at version `(2, 1)`. -/
theorem distributed_iff_supports_location_objects_witness :
    is_distributed (2, 1) = supports_location_objects (2, 1) ∧
    (is_distributed (2, 1) = true ↔ specLexGe (2, 1) VERSION_2_0) ∧
    (supports_location_objects (2, 1) = true ↔ specLexGe (2, 1) VERSION_2_0) :=
  distributed_iff_supports_location_objects 2 1 (by decide) (by decide)

/- ### C7: with_remote_url -/

/-- C7: `with_remote_url` produces a new Location whose url is the
slash-stripped base joined to `local_path`, all other fields equal to the
receiver's (contents as an equal — freshly copied — sequence); the
receiver is a pure value and is untouched. -/
theorem with_remote_url_frame (L : Location) (b p : String)
    (hp : L.local_path = some p) :
    (L.with_remote_url b).url = some (pyRstripSlash b ++ "/" ++ p) ∧
    (L.with_remote_url b).size = L.size ∧
    (L.with_remote_url b).checksum = L.checksum ∧
    (L.with_remote_url b).local_path = L.local_path ∧
    (L.with_remote_url b).contents = L.contents := by
  unfold Location.with_remote_url Location.init
  rw [hp]
  refine ⟨rfl, rfl, rfl, rfl, ?_⟩
  cases hc : L.contents with
  | nil => simp
  | cons x xs => simp

/-- C7 witness: the spec's CDN example. -/
theorem with_remote_url_frame_witness :
    (Location.with_remote_url
      ⟨some "Server/x86_64/os/Packages/b/bash.rpm", some 1000,
       some ("sha256:" ++ String.mk (List.replicate 64 'a')),
       some "Server/x86_64/os/Packages/b/bash.rpm", []⟩
      "https://cdn.example.com/compose").url
      = some "https://cdn.example.com/compose/Server/x86_64/os/Packages/b/bash.rpm" := by
  have h := with_remote_url_frame
    ⟨some "Server/x86_64/os/Packages/b/bash.rpm", some 1000,
     some ("sha256:" ++ String.mk (List.replicate 64 'a')),
     some "Server/x86_64/os/Packages/b/bash.rpm", []⟩
    "https://cdn.example.com/compose" "Server/x86_64/os/Packages/b/bash.rpm" rfl
  exact h.1.trans (by decide)

/- ### C10: equality vs hash consistency -/

theorem fileEntry_pyEq_iff (a b : FileEntry) : FileEntry.pyEq a b = true ↔ a = b := by
  unfold FileEntry.pyEq
  cases a
  cases b
  simp only [Bool.and_eq_true, beq_iff_eq, FileEntry.mk.injEq]
  tauto

theorem feListEq_iff : ∀ xs ys : List FileEntry, feListEq xs ys = true ↔ xs = ys := by
  intro xs
  induction xs with
  | nil => intro ys; cases ys <;> simp [feListEq]
  | cons a as ih =>
    intro ys
    cases ys with
    | nil => simp [feListEq]
    | cons b bs => simp [feListEq, Bool.and_eq_true, fileEntry_pyEq_iff, ih]

/-- C10: Python equality on Locations (all five fields, contents
element-wise) is consistent with the hash, which is computed over only
`(url, size, checksum, local_path)`; two Locations differing only in
contents are unequal yet collide on the hash key. -/
theorem location_eq_hash_consistent :
    (∀ L1 L2 : Location, Location.pyEq L1 L2 = true → L1.hashKey = L2.hashKey) ∧
    (∀ L1 L2 : Location, L1.url = L2.url → L1.size = L2.size →
      L1.checksum = L2.checksum → L1.local_path = L2.local_path →
      L1.contents ≠ L2.contents →
      Location.pyEq L1 L2 = false ∧ L1.hashKey = L2.hashKey) := by
  constructor
  · intro L1 L2 h
    unfold Location.pyEq at h
    simp only [Bool.and_eq_true, beq_iff_eq] at h
    unfold Location.hashKey
    obtain ⟨⟨⟨⟨h1, h2⟩, h3⟩, h4⟩, _⟩ := h
    rw [h1, h2, h3, h4]
  · intro L1 L2 h1 h2 h3 h4 h5
    constructor
    · unfold Location.pyEq
      have : feListEq L1.contents L2.contents = false := by
        cases hfe : feListEq L1.contents L2.contents
        · rfl
        · exact absurd ((feListEq_iff _ _).mp hfe) h5
      simp [this]
    · unfold Location.hashKey
      rw [h1, h2, h3, h4]

/-- C10 witness: two concrete Locations differing only in contents. -/
theorem location_eq_hash_consistent_witness :
    Location.pyEq
      ⟨some ("oci://q/r@sha256:" ++ String.mk (List.replicate 64 'a')), some 1, some "sha256:ab", some "x", []⟩
      ⟨some ("oci://q/r@sha256:" ++ String.mk (List.replicate 64 'a')), some 1, some "sha256:ab", some "x",
       [⟨some "f", some 1, some "sha256:ab", some "sha256:cd"⟩]⟩ = false ∧
    Location.hashKey
      ⟨some ("oci://q/r@sha256:" ++ String.mk (List.replicate 64 'a')), some 1, some "sha256:ab", some "x", []⟩ =
    Location.hashKey
      ⟨some ("oci://q/r@sha256:" ++ String.mk (List.replicate 64 'a')), some 1, some "sha256:ab", some "x",
       [⟨some "f", some 1, some "sha256:ab", some "sha256:cd"⟩]⟩ :=
  location_eq_hash_consistent.2 _ _ rfl rfl rfl rfl (by decide)

/- ### C9: scheme classification -/

theorem not_https_and_http (u : String) :
    ¬(strStartsWith u "https://" = true ∧ strStartsWith u "http://" = true) := by
  rintro ⟨h1, h2⟩
  unfold strStartsWith at h1 h2
  rcases prefixComparable u.data _ _ h1 h2 with h | h
  · exact absurd h (by decide)
  · exact absurd h (by decide)

theorem not_https_and_oci (u : String) :
    ¬(strStartsWith u "https://" = true ∧ strStartsWith u "oci://" = true) := by
  rintro ⟨h1, h2⟩
  unfold strStartsWith at h1 h2
  rcases prefixComparable u.data _ _ h1 h2 with h | h
  · exact absurd h (by decide)
  · exact absurd h (by decide)

theorem not_http_and_oci (u : String) :
    ¬(strStartsWith u "http://" = true ∧ strStartsWith u "oci://" = true) := by
  rintro ⟨h1, h2⟩
  unfold strStartsWith at h1 h2
  rcases prefixComparable u.data _ _ h1 h2 with h | h
  · exact absurd h (by decide)
  · exact absurd h (by decide)

/-- C9: the scheme classifications are mutually exclusive and exhaustive:
at most one of `is_https`/`is_http`/`is_oci` holds, `is_remote` holds
exactly when one of them does, `is_local` exactly when none does, and an
absent or empty url classifies as local. -/
theorem url_scheme_classification (L : Location) :
    (¬(L.is_https = true ∧ L.is_http = true)) ∧
    (¬(L.is_https = true ∧ L.is_oci = true)) ∧
    (¬(L.is_http = true ∧ L.is_oci = true)) ∧
    (L.is_remote = (L.is_https || L.is_http || L.is_oci)) ∧
    (L.is_local = !(L.is_https || L.is_http || L.is_oci)) ∧
    (L.url = none → L.is_local = true) ∧
    (L.url = some "" → L.is_local = true) := by
  cases hu : L.url with
  | none =>
    have hs : L.is_https = false := by unfold Location.is_https; rw [hu]
    have hh : L.is_http = false := by unfold Location.is_http; rw [hu]
    have ho : L.is_oci = false := by unfold Location.is_oci; rw [hu]
    have hr : L.is_remote = false := by unfold Location.is_remote; rw [hu]
    have hl : L.is_local = true := by unfold Location.is_local; rw [hr]; rfl
    refine ⟨?_, ?_, ?_, ?_, ?_, ?_, ?_⟩ <;> simp [hs, hh, ho, hr, hl]
  | some u =>
    by_cases hu0 : u = ""
    · subst hu0
      have hs : L.is_https = false := by unfold Location.is_https; rw [hu]; rfl
      have hh : L.is_http = false := by unfold Location.is_http; rw [hu]; rfl
      have ho : L.is_oci = false := by unfold Location.is_oci; rw [hu]; rfl
      have hr : L.is_remote = false := by unfold Location.is_remote; rw [hu]; rfl
      have hl : L.is_local = true := by unfold Location.is_local; rw [hr]; rfl
      refine ⟨?_, ?_, ?_, ?_, ?_, ?_, ?_⟩ <;> simp [hs, hh, ho, hr, hl]
    · have hs : L.is_https = strStartsWith u "https://" := by
        unfold Location.is_https; rw [hu]; simp [hu0]
      have hh : L.is_http = strStartsWith u "http://" := by
        unfold Location.is_http; rw [hu]; simp [hu0]
      have ho : L.is_oci = strStartsWith u "oci://" := by
        unfold Location.is_oci; rw [hu]; simp [hu0]
      have hr : L.is_remote =
          (strStartsWith u "https://" || strStartsWith u "http://" || strStartsWith u "oci://") := by
        unfold Location.is_remote; rw [hu]; simp [hu0]
      have hl : L.is_local =
          !(strStartsWith u "https://" || strStartsWith u "http://" || strStartsWith u "oci://") := by
        unfold Location.is_local; rw [hr]
      refine ⟨?_, ?_, ?_, ?_, ?_, ?_, ?_⟩
      · rw [hs, hh]; exact not_https_and_http u
      · rw [hs, ho]; exact not_https_and_oci u
      · rw [hh, ho]; exact not_http_and_oci u
      · rw [hr, hs, hh, ho]
      · rw [hl, hs, hh, ho]
      · intro h; cases h
      · intro h
        injection h with h'
        exact absurd h' hu0

/-- C9 witness: instantiation at an absent url and at an empty url. -/
theorem url_scheme_classification_witness :
    Location.is_local ⟨none, none, none, none, []⟩ = true ∧
    Location.is_local ⟨some "", none, none, none, []⟩ = true :=
  ⟨(url_scheme_classification ⟨none, none, none, none, []⟩).2.2.2.2.2.1 rfl,
   (url_scheme_classification ⟨some "", none, none, none, []⟩).2.2.2.2.2.2 rfl⟩

/- ### C8: checksum digest length is not validated -/

/-- C8 counterexample: a `sha256` checksum whose digest is only 10 hex
characters is accepted by `parse_checksum`, not rejected. -/
theorem parse_checksum_short_digest_accepted :
    parse_checksum "sha256:aaaaaaaaaa" = .ok ("sha256", "aaaaaaaaaa") := by decide

theorem strDataAppend (x y : String) : (x ++ y).data = x.data ++ y.data := by
  cases x
  cases y
  rfl

/-- C8 amended: `parse_checksum` accepts `"<algorithm>:<digest>"` for every
nonempty lowercase-hex digest, whatever its length — digest length is not
checked against the algorithm's output length. -/
theorem parse_checksum_accepts_any_hex_length (a d : String)
    (ha : a ∈ (["sha256", "sha512", "sha1", "md5"] : List String))
    (hd : d.data ≠ []) (hx : d.data.all hexChar = true) :
    parse_checksum (a ++ ":" ++ d) = .ok (a, d) := by
  have hsd : (a ++ ":" ++ d).data = a.data ++ ':' :: d.data := by
    rw [strDataAppend, strDataAppend]
    simp
  clear hsd
  have hne : d.data.isEmpty = false := by
    cases hdd : d.data with
    | nil => exact absurd hdd hd
    | cons c0 cs0 => rfl
  have heta : String.mk d.data = d := rfl
  fin_cases ha
  · unfold parse_checksum
    rw [show checksumMatch ("sha256" ++ ":" ++ d) =
        (if d.data.isEmpty then none
         else if d.data.all hexChar then some ("sha256", String.mk d.data) else none) from rfl]
    rw [hne, hx, heta]
    rfl
  · unfold parse_checksum
    rw [show checksumMatch ("sha512" ++ ":" ++ d) =
        (if d.data.isEmpty then none
         else if d.data.all hexChar then some ("sha512", String.mk d.data) else none) from rfl]
    rw [hne, hx, heta]
    rfl
  · unfold parse_checksum
    rw [show checksumMatch ("sha1" ++ ":" ++ d) =
        (if d.data.isEmpty then none
         else if d.data.all hexChar then some ("sha1", String.mk d.data) else none) from rfl]
    rw [hne, hx, heta]
    rfl
  · unfold parse_checksum
    rw [show checksumMatch ("md5" ++ ":" ++ d) =
        (if d.data.isEmpty then none
         else if d.data.all hexChar then some ("md5", String.mk d.data) else none) from rfl]
    rw [hne, hx, heta]
    rfl

/- ### Validation characterization -/

theorem location_validate_ok_iff (L : Location) :
    L.validate = .ok () ↔
      (L.validate_url = .ok () ∧ L.validate_size = .ok () ∧ L.validate_checksum = .ok () ∧
       L.validate_local_path = .ok () ∧ L.validate_contents = .ok ()) := by
  unfold Location.validate
  cases h1 : L.validate_url with
  | error e => simp [h1]
  | ok v =>
    cases v
    cases h2 : L.validate_size with
    | error e => simp [h2]
    | ok v =>
      cases v
      cases h3 : L.validate_checksum with
      | error e => simp [h3]
      | ok v =>
        cases v
        cases h4 : L.validate_local_path with
        | error e => simp [h4]
        | ok v => cases v; simp

/- ### C3: OCI reference classification and digest validation -/

theorem slash_oci_exclusive (u : String) (hoci : strStartsWith u "oci://" = true) :
    strStartsWith u "/" = false := by
  cases hsw : strStartsWith u "/" with
  | false => rfl
  | true =>
    exfalso
    unfold strStartsWith at hoci hsw
    rcases prefixComparable u.data _ _ hoci hsw with h | h
    · exact absurd h (by decide)
    · exact absurd h (by decide)

theorem str_ne_empty_of_oci (u : String) (hoci : strStartsWith u "oci://" = true) : u ≠ "" := by
  intro he
  subst he
  exact absurd hoci (by decide)

theorem is_oci_of_url (L : Location) (u : String) (hu : L.url = some u)
    (hoci : strStartsWith u "oci://" = true) : L.is_oci = true := by
  unfold Location.is_oci
  rw [hu]
  simp [str_ne_empty_of_oci u hoci, hoci]

/-- C3 amended: the reference OCI url with tag and digest decomposes into
registry `quay.io`, repository `fedora/rpms`, tag `bash` and its
`sha256:aa…a` digest; and every Location whose url starts with `oci://`
but does not contain the literal substring `"@sha256:"` fails
`validate()`.  (The code checks only for that substring, not for a
well-formed 64-hex digest component.) -/
theorem oci_reference_classification :
    (Location.is_oci
        ⟨some ("oci://quay.io/fedora/rpms:bash@sha256:" ++ String.mk (List.replicate 64 'a')),
         some 1000, some ("sha256:" ++ String.mk (List.replicate 64 'a')), some "x/y.rpm", []⟩ = true ∧
     Location.oci_registry
        ⟨some ("oci://quay.io/fedora/rpms:bash@sha256:" ++ String.mk (List.replicate 64 'a')),
         some 1000, some ("sha256:" ++ String.mk (List.replicate 64 'a')), some "x/y.rpm", []⟩
        = some "quay.io" ∧
     Location.oci_repository
        ⟨some ("oci://quay.io/fedora/rpms:bash@sha256:" ++ String.mk (List.replicate 64 'a')),
         some 1000, some ("sha256:" ++ String.mk (List.replicate 64 'a')), some "x/y.rpm", []⟩
        = some "fedora/rpms" ∧
     Location.oci_tag
        ⟨some ("oci://quay.io/fedora/rpms:bash@sha256:" ++ String.mk (List.replicate 64 'a')),
         some 1000, some ("sha256:" ++ String.mk (List.replicate 64 'a')), some "x/y.rpm", []⟩
        = some "bash" ∧
     Location.oci_digest
        ⟨some ("oci://quay.io/fedora/rpms:bash@sha256:" ++ String.mk (List.replicate 64 'a')),
         some 1000, some ("sha256:" ++ String.mk (List.replicate 64 'a')), some "x/y.rpm", []⟩
        = some ("sha256:" ++ String.mk (List.replicate 64 'a'))) ∧
    (∀ (L : Location) (u : String), L.url = some u → strStartsWith u "oci://" = true →
      pyContains "@sha256:" u = false → L.validate ≠ .ok ()) := by
  constructor
  · exact ⟨by decide, by decide, by decide, by decide, by decide⟩
  · intro L u hu hoci hcon hok
    have hurl : L.validate_url = .ok () := ((location_validate_ok_iff L).mp hok).1
    have hne : u ≠ "" := str_ne_empty_of_oci u hoci
    have hslash : strStartsWith u "/" = false := slash_oci_exclusive u hoci
    have hisoci : L.is_oci = true := is_oci_of_url L u hu hoci
    unfold Location.validate_url at hurl
    rw [hu] at hurl
    simp [assertStr, assertNotBlank, hne, hslash, hisoci, hcon] at hurl

/-- C3 witness: the amended validation failure at a digest-less OCI url. -/
theorem oci_reference_classification_witness :
    Location.validate
      ⟨some "oci://quay.io/fedora/rpms:bash", some 1000,
       some ("sha256:" ++ String.mk (List.replicate 64 'a')), some "x/y.rpm", []⟩ ≠ .ok () :=
  oci_reference_classification.2 _ "oci://quay.io/fedora/rpms:bash" rfl (by decide) (by decide)

/-- C3 counterexample: `oci://quay.io/fedora/rpms@sha256:zz` starts with
`oci://` and lacks a well-formed `@sha256:<64-hex>` digest component (the
OCI reference regex rejects it, so every OCI group accessor is absent),
yet a Location carrying it passes `validate()` — the digest check tests
only for the `"@sha256:"` substring. -/
theorem oci_digest_length_not_validated :
    strStartsWith "oci://quay.io/fedora/rpms@sha256:zz" "oci://" = true ∧
    ociMatch "oci://quay.io/fedora/rpms@sha256:zz" = none ∧
    Location.oci_digest
      ⟨some "oci://quay.io/fedora/rpms@sha256:zz", some 1000,
       some ("sha256:" ++ String.mk (List.replicate 64 'a')), some "x/y.rpm", []⟩ = none ∧
    Location.validate
      ⟨some "oci://quay.io/fedora/rpms@sha256:zz", some 1000,
       some ("sha256:" ++ String.mk (List.replicate 64 'a')), some "x/y.rpm", []⟩ = .ok () := by
  refine ⟨by decide, by decide, by decide, by decide⟩

/- ### C4: violations are validate-time, construction is total -/

/-- The url-is-an-absolute-path condition of `_validate_url`. -/
def Location.urlAbsolute (L : Location) : Bool :=
  match L.url with
  | some u => strStartsWith u "/"
  | none => false

/-- The local_path-is-an-absolute-path condition of `_validate_local_path`. -/
def Location.localPathAbsolute (L : Location) : Bool :=
  match L.local_path with
  | some p => strStartsWith p "/"
  | none => false

/-- The OCI-url-without-digest-marker condition of `_validate_url`. -/
def Location.ociMissingDigest (L : Location) : Bool :=
  L.is_oci &&
    (match L.url with
     | some u => !pyContains "@sha256:" u
     | none => false)

/-- The negative-size condition of `_validate_size`. -/
def Location.sizeNegative (L : Location) : Bool :=
  match L.size with
  | some n => decide (n < 0)
  | none => false

/-- The contents-without-OCI-url condition of `_validate_contents`. -/
def Location.contentsWithoutOci (L : Location) : Bool :=
  !L.contents.isEmpty && !L.is_oci

theorem validate_url_not_ok_of_abs (L : Location) (u : String) (hu : L.url = some u)
    (habs : strStartsWith u "/" = true) : L.validate_url ≠ .ok () := by
  intro hok
  unfold Location.validate_url at hok
  rw [hu] at hok
  by_cases h0 : u = ""
  · simp [assertStr, assertNotBlank, h0] at hok
  · simp [assertStr, assertNotBlank, h0, habs] at hok

theorem validate_url_not_ok_of_nodigest (L : Location) (u : String) (hu : L.url = some u)
    (hoci : L.is_oci = true) (hcon : pyContains "@sha256:" u = false) :
    L.validate_url ≠ .ok () := by
  intro hok
  unfold Location.validate_url at hok
  rw [hu] at hok
  by_cases h0 : u = ""
  · simp [assertStr, assertNotBlank, h0] at hok
  · by_cases habs : strStartsWith u "/" = true
    · simp [assertStr, assertNotBlank, h0, habs] at hok
    · simp [assertStr, assertNotBlank, h0, habs, hoci, hcon] at hok

theorem validate_size_not_ok_of_neg (L : Location) (n : Int) (hn : L.size = some n)
    (hneg : n < 0) : L.validate_size ≠ .ok () := by
  intro hok
  unfold Location.validate_size at hok
  rw [hn] at hok
  simp [assertInt, hneg] at hok

theorem validate_local_path_not_ok_of_abs (L : Location) (p : String)
    (hp : L.local_path = some p) (habs : strStartsWith p "/" = true) :
    L.validate_local_path ≠ .ok () := by
  intro hok
  unfold Location.validate_local_path at hok
  rw [hp] at hok
  by_cases h0 : p = ""
  · simp [assertStr, assertNotBlank, h0] at hok
  · simp [assertStr, assertNotBlank, h0, habs] at hok

theorem validate_contents_not_ok (L : Location)
    (h : (!L.contents.isEmpty && !L.is_oci) = true) : L.validate_contents ≠ .ok () := by
  intro hok
  unfold Location.validate_contents at hok
  simp [h] at hok

/-- C4: `Location.__init__` is a total field assignment — every invariant
violation (absolute url, absolute local_path, OCI url without its digest
marker, negative size, non-empty contents on a non-OCI url) is detected
only by `validate()`, which fails on every Location exhibiting any one of
them. -/
theorem construction_total_validation_rejects :
    (∀ u s c lp cont, Location.init u s c lp cont =
        { url := u, size := s, checksum := c, local_path := lp, contents := cont.getD [] }) ∧
    (∀ L : Location,
      (L.urlAbsolute || L.localPathAbsolute || L.ociMissingDigest || L.sizeNegative
        || L.contentsWithoutOci) = true → L.validate ≠ .ok ()) := by
  constructor
  · intro u s c lp cont; rfl
  · intro L h hok
    rw [location_validate_ok_iff] at hok
    obtain ⟨o1, o2, o3, o4, o5⟩ := hok
    simp only [Bool.or_eq_true] at h
    rcases h with ((((h | h) | h) | h) | h)
    · unfold Location.urlAbsolute at h
      cases hu : L.url with
      | none => rw [hu] at h; simp at h
      | some u => rw [hu] at h; exact validate_url_not_ok_of_abs L u hu h o1
    · unfold Location.localPathAbsolute at h
      cases hp : L.local_path with
      | none => rw [hp] at h; simp at h
      | some p => rw [hp] at h; exact validate_local_path_not_ok_of_abs L p hp h o4
    · unfold Location.ociMissingDigest at h
      rw [Bool.and_eq_true] at h
      obtain ⟨hoci, hm⟩ := h
      cases hu : L.url with
      | none => rw [hu] at hm; simp at hm
      | some u =>
        rw [hu] at hm
        have hcon : pyContains "@sha256:" u = false := by
          have : (!pyContains "@sha256:" u) = true := hm
          simp at this
          exact this
        exact validate_url_not_ok_of_nodigest L u hu hoci hcon o1
    · unfold Location.sizeNegative at h
      cases hn : L.size with
      | none => rw [hn] at h; simp at h
      | some n =>
        rw [hn] at h
        have : n < 0 := by simpa using h
        exact validate_size_not_ok_of_neg L n hn this o2
    · exact validate_contents_not_ok L h o5

/-- C4 witness: a Location with a negative size is rejected by
`validate()`. -/
theorem construction_total_validation_rejects_witness :
    Location.validate ⟨some "a/b", some (-1), some "sha256:ab", some "a/b", []⟩ ≠ .ok () :=
  construction_total_validation_rejects.2
    ⟨some "a/b", some (-1), some "sha256:ab", some "a/b", []⟩ (by decide)

/- ### C5: serialize / from_dict roundtrip -/

theorem fileentry_validate_ok_iff (e : FileEntry) :
    e.validate = .ok () ↔
      (e.validate_file = .ok () ∧ e.validate_size = .ok () ∧ e.validate_checksum = .ok () ∧
       e.validate_layer_digest = .ok ()) := by
  unfold FileEntry.validate
  cases h1 : e.validate_file with
  | error err => simp [h1]
  | ok v =>
    cases v
    cases h2 : e.validate_size with
    | error err => simp [h2]
    | ok v =>
      cases v
      cases h3 : e.validate_checksum with
      | error err => simp [h3]
      | ok v => cases v; simp

theorem validate_file_shape (e : FileEntry) (h : e.validate_file = .ok ()) :
    ∃ f, e.file = some f := by
  cases hf : e.file with
  | none =>
    exfalso
    unfold FileEntry.validate_file at h
    rw [hf] at h
    simp [assertStr] at h
  | some f => exact ⟨f, rfl⟩

theorem fe_validate_size_shape (e : FileEntry) (h : e.validate_size = .ok ()) :
    ∃ n, e.size = some n := by
  cases hn : e.size with
  | none =>
    exfalso
    unfold FileEntry.validate_size at h
    rw [hn] at h
    simp [assertInt] at h
  | some n => exact ⟨n, rfl⟩

theorem fe_validate_checksum_shape (e : FileEntry) (h : e.validate_checksum = .ok ()) :
    ∃ c, e.checksum = some c := by
  cases hc : e.checksum with
  | none =>
    exfalso
    unfold FileEntry.validate_checksum at h
    rw [hc] at h
    simp [assertStr] at h
  | some c => exact ⟨c, rfl⟩

theorem fe_validate_layer_shape (e : FileEntry) (h : e.validate_layer_digest = .ok ()) :
    ∃ d, e.layer_digest = some d := by
  cases hd : e.layer_digest with
  | none =>
    exfalso
    unfold FileEntry.validate_layer_digest at h
    rw [hd] at h
    simp [assertStr] at h
  | some d => exact ⟨d, rfl⟩

/-- The serialized dictionary of a FileEntry. -/
def feJson (e : FileEntry) : Json :=
  .obj [("file", jsonOfOptStr e.file), ("size", jsonOfOptInt e.size),
        ("checksum", jsonOfOptStr e.checksum), ("layer_digest", jsonOfOptStr e.layer_digest)]

theorem fileentry_serialize_ok (e : FileEntry) (h : e.validate = .ok ()) :
    e.serialize = .ok (feJson e) := by
  unfold FileEntry.serialize feJson
  rw [h]

theorem fileentry_from_dict_roundtrip (e : FileEntry) (h : e.validate = .ok ()) :
    FileEntry.from_dict (feJson e) = .ok e := by
  obtain ⟨o1, o2, o3, o4⟩ := (fileentry_validate_ok_iff e).mp h
  obtain ⟨file, size, cks, layer⟩ := e
  obtain ⟨f, hf⟩ := validate_file_shape _ o1
  obtain ⟨n, hn⟩ := fe_validate_size_shape _ o2
  obtain ⟨c, hc⟩ := fe_validate_checksum_shape _ o3
  obtain ⟨ld, hld⟩ := fe_validate_layer_shape _ o4
  have hf' : file = some f := hf
  have hn' : size = some n := hn
  have hc' : cks = some c := hc
  have hld' : layer = some ld := hld
  subst hf'
  subst hn'
  subst hc'
  subst hld'
  show (match FileEntry.validate ⟨some f, some n, some c, some ld⟩ with
        | .error err => (.error err : Except PyErr FileEntry)
        | .ok _ => .ok ⟨some f, some n, some c, some ld⟩) = .ok ⟨some f, some n, some c, some ld⟩
  rw [h]

theorem entries_roundtrip :
    ∀ xs : List FileEntry, validateEntries xs = .ok () →
      ∃ ds, serializeEntries xs = .ok ds ∧ fromDictEntries ds = .ok xs := by
  intro xs
  induction xs with
  | nil => intro _; exact ⟨[], rfl, rfl⟩
  | cons e rest ih =>
    intro h
    have hsplit : e.validate = .ok () ∧ validateEntries rest = .ok () := by
      unfold validateEntries at h
      cases hv : e.validate with
      | error err => rw [hv] at h; simp at h
      | ok v => cases v; rw [hv] at h; exact ⟨rfl, h⟩
    obtain ⟨ds, hds1, hds2⟩ := ih hsplit.2
    refine ⟨feJson e :: ds, ?_, ?_⟩
    · unfold serializeEntries
      rw [fileentry_serialize_ok e hsplit.1, hds1]
    · unfold fromDictEntries
      rw [fileentry_from_dict_roundtrip e hsplit.1, hds2]

theorem loc_validate_url_shape (L : Location) (h : L.validate_url = .ok ()) :
    ∃ u, L.url = some u := by
  cases hu : L.url with
  | none =>
    exfalso
    unfold Location.validate_url at h
    rw [hu] at h
    simp [assertStr] at h
  | some u => exact ⟨u, rfl⟩

theorem loc_validate_size_shape (L : Location) (h : L.validate_size = .ok ()) :
    ∃ n, L.size = some n := by
  cases hn : L.size with
  | none =>
    exfalso
    unfold Location.validate_size at h
    rw [hn] at h
    simp [assertInt] at h
  | some n => exact ⟨n, rfl⟩

theorem loc_validate_checksum_shape (L : Location) (h : L.validate_checksum = .ok ()) :
    ∃ c, L.checksum = some c := by
  cases hc : L.checksum with
  | none =>
    exfalso
    unfold Location.validate_checksum at h
    rw [hc] at h
    simp [assertStr] at h
  | some c => exact ⟨c, rfl⟩

theorem loc_validate_local_path_shape (L : Location) (h : L.validate_local_path = .ok ()) :
    ∃ p, L.local_path = some p := by
  cases hp : L.local_path with
  | none =>
    exfalso
    unfold Location.validate_local_path at h
    rw [hp] at h
    simp [assertStr] at h
  | some p => exact ⟨p, rfl⟩

theorem loc_validate_contents_entries (L : Location) (h : L.validate_contents = .ok ()) :
    validateEntries L.contents = .ok () := by
  unfold Location.validate_contents at h
  cases hc : (!L.contents.isEmpty && !L.is_oci) with
  | true => rw [hc] at h; simp at h
  | false => rw [hc] at h; simpa using h

/-- C5: every Location that passes `validate()` serializes successfully and
`from_dict` of the result reconstructs an equal Location — both with empty
contents and with FileEntry contents (structural equality on the embedding
is element-wise on contents). -/
theorem location_roundtrip (L : Location) (h : L.validate = .ok ()) :
    ∃ d, L.serialize = .ok d ∧ Location.from_dict d = .ok L := by
  obtain ⟨o1, o2, o3, o4, o5⟩ := (location_validate_ok_iff L).mp h
  have hvE := loc_validate_contents_entries L o5
  obtain ⟨url, size, cks, lp, cont⟩ := L
  obtain ⟨u, hu⟩ := loc_validate_url_shape _ o1
  obtain ⟨n, hn⟩ := loc_validate_size_shape _ o2
  obtain ⟨c, hc⟩ := loc_validate_checksum_shape _ o3
  obtain ⟨p, hp⟩ := loc_validate_local_path_shape _ o4
  have hu' : url = some u := hu
  have hn' : size = some n := hn
  have hc' : cks = some c := hc
  have hp' : lp = some p := hp
  subst hu'
  subst hn'
  subst hc'
  subst hp'
  cases cont with
  | nil =>
    refine ⟨.obj [("url", .str u), ("size", .num n), ("checksum", .str c),
      ("local_path", .str p)], ?_, ?_⟩
    · unfold Location.serialize
      rw [h]
      rfl
    · show (match Location.validate ⟨some u, some n, some c, some p, []⟩ with
            | .error err => (.error err : Except PyErr Location)
            | .ok _ => .ok ⟨some u, some n, some c, some p, []⟩)
          = .ok ⟨some u, some n, some c, some p, []⟩
      rw [h]
  | cons e es =>
    obtain ⟨ds, hds1, hds2⟩ := entries_roundtrip (e :: es) hvE
    refine ⟨.obj [("url", .str u), ("size", .num n), ("checksum", .str c),
      ("local_path", .str p), ("contents", .arr ds)], ?_, ?_⟩
    · unfold Location.serialize
      rw [h]
      show (match serializeEntries (e :: es) with
            | .error err => (.error err : Except PyErr Json)
            | .ok ds' => .ok (.obj [("url", .str u), ("size", .num n), ("checksum", .str c),
                ("local_path", .str p), ("contents", .arr ds')]))
          = _
      rw [hds1]
    · show (match fromDictEntries ds with
            | .error err => (.error err : Except PyErr Location)
            | .ok cs =>
              match Location.validate ⟨some u, some n, some c, some p, cs⟩ with
              | .error err => .error err
              | .ok _ => .ok ⟨some u, some n, some c, some p, cs⟩)
          = .ok ⟨some u, some n, some c, some p, e :: es⟩
      rw [hds2]
      show (match Location.validate ⟨some u, some n, some c, some p, e :: es⟩ with
            | .error err => (.error err : Except PyErr Location)
            | .ok _ => .ok ⟨some u, some n, some c, some p, e :: es⟩)
          = .ok ⟨some u, some n, some c, some p, e :: es⟩
      rw [h]

/-- C5 witness: a concrete valid OCI Location with one FileEntry. -/
theorem location_roundtrip_witness :
    ∃ d, Location.serialize
        ⟨some ("oci://quay.io/fedora/rpms:bash@sha256:" ++ String.mk (List.replicate 64 'a')),
         some 1000, some ("sha256:" ++ String.mk (List.replicate 64 'a')), some "x/y.rpm",
         [⟨some "k.img", some 5, some ("sha256:" ++ String.mk (List.replicate 64 'b')),
           some ("sha256:" ++ String.mk (List.replicate 64 'b'))⟩]⟩ = .ok d ∧
      Location.from_dict d = .ok
        ⟨some ("oci://quay.io/fedora/rpms:bash@sha256:" ++ String.mk (List.replicate 64 'a')),
         some 1000, some ("sha256:" ++ String.mk (List.replicate 64 'a')), some "x/y.rpm",
         [⟨some "k.img", some 5, some ("sha256:" ++ String.mk (List.replicate 64 'b')),
           some ("sha256:" ++ String.mk (List.replicate 64 'b'))⟩]⟩ :=
  location_roundtrip _ (by decide)

/- ### C1: an explicit header version tag short-circuits all heuristics -/

theorem keyMem_eq_isSome (kvs : List (String × Json)) (k : String) :
    kvs.any (fun kv => kv.1 == k) = (jlookup kvs k).isSome := by
  unfold jlookup
  induction kvs with
  | nil => rfl
  | cons kv rest ih =>
    cases hpk : (kv.1 == k) with
    | true => simp [List.any_cons, List.find?, hpk]
    | false => simp [List.any_cons, List.find?, hpk, ih]

theorem any_key_of_jlookup (kvs : List (String × Json)) (k : String) (v : Json)
    (h : jlookup kvs k = some v) : kvs.any (fun kv => kv.1 == k) = true := by
  rw [keyMem_eq_isSome, h]
  rfl

theorem pyGetItem_of_jlookup (kvs : List (String × Json)) (k : String) (v : Json)
    (h : jlookup kvs k = some v) : pyGetItem k (.obj kvs) = .ok v := by
  show (match jlookup kvs k with
        | some w => (.ok w : Except PyErr Json)
        | none => .error (.keyError k)) = .ok v
  rw [h]

/-- C1: whenever the header holds an explicit version tag, the detector
returns exactly the parse of that tag string, whatever the payload holds —
structural evidence is never consulted. -/
theorem detect_header_version_authoritative (data : List (String × Json))
    (hh : List (String × Json)) (s : String)
    (h1 : jlookup data "header" = some (Json.obj hh))
    (h2 : jlookup hh "version" = some (Json.str s)) :
    detect_version_from_data data = string_to_version s := by
  have hm : pyMem "version" (Json.obj hh) = .ok true := by
    show Except.ok (hh.any (fun kv => kv.1 == "version")) = .ok true
    rw [any_key_of_jlookup hh "version" _ h2]
  unfold detect_version_from_data
  rw [h1]
  show (match pyMem "version" (Json.obj hh) with
        | .error e => (.error e : Except PyErr Version)
        | .ok true =>
          (match pyGetItem "version" (Json.obj hh) with
           | .error e => .error e
           | .ok v => pyStringToVersion v)
        | .ok false => detectFromPayload data) = string_to_version s
  rw [hm, pyGetItem_of_jlookup hh "version" _ h2]
  rfl

/-- C1 witness: a header tag `"1.2"` wins over a payload whose images
carry location objects (structural evidence for 2.0). -/
theorem detect_header_version_authoritative_witness :
    detect_version_from_data
      [("header", .obj [("version", .str "1.2")]),
       ("payload", .obj [("images", .obj [("V", .obj [("x86_64",
          .arr [.obj [("location", .obj [])]])])])])]
      = .ok (1, 2) :=
  (detect_header_version_authoritative
    [("header", .obj [("version", .str "1.2")]),
     ("payload", .obj [("images", .obj [("V", .obj [("x86_64",
        .arr [.obj [("location", .obj [])]])])])])]
    [("version", .str "1.2")] "1.2" rfl rfl).trans (by decide)

/- ### C2: structural inference (under well-shaped payloads) -/

/-- Spec wording: the container at key `k`, when present as a dict, holds a
variant satisfying the container-specific traversal `f`. -/
def specContainerHas (kvs : List (String × Json)) (k : String) (f : Json → Bool) : Bool :=
  match jlookup kvs k with
  | some (.obj r) => (r.map (fun kv => kv.2)).any f
  | _ => false

/-- Spec wording: a variant whose path table holds a path descriptor with a
`"url"` key. -/
def variantHasPathUrl : Json → Bool
  | .obj vkvs =>
    (match jlookup vkvs "paths" with
     | some (.obj pv) => (pv.map (fun kv => kv.2)).any pathTypeHasUrl
     | _ => false)
  | _ => false

/-- Spec wording of step 2 of the detector: some known container shape
(package tree, image list, extra-files list) holds an entry with a
`"location"` key, or the variant path table holds a descriptor with a
`"url"` key. -/
def specLocationMarker (kvs : List (String × Json)) : Bool :=
  specContainerHas kvs "rpms" variantHasLocationRpms ||
  specContainerHas kvs "images" variantHasLocationImages ||
  specContainerHas kvs "extra_files" variantHasLocationImages ||
  specContainerHas kvs "variants" variantHasPathUrl

/-- Spec wording of step 3: the payload carries a recognizable legacy
container key. -/
def specLegacyKeys (kvs : List (String × Json)) : Bool :=
  kvs.any (fun kv => kv.1 == "rpms") || kvs.any (fun kv => kv.1 == "images") ||
    kvs.any (fun kv => kv.1 == "compose")

/-- Well-shapedness of one container key: absent, or mapped to a dict. -/
def containerOk (kvs : List (String × Json)) (k : String) : Bool :=
  match jlookup kvs k with
  | none => true
  | some (.obj _) => true
  | some _ => false

/-- Well-shapedness of one variant: its `"paths"` value, if any, is a
dict. -/
def variantOkB : Json → Bool
  | .obj vkvs =>
    (match jlookup vkvs "paths" with
     | none => true
     | some (.obj _) => true
     | some _ => false)
  | _ => true

/-- Well-shapedness of the `variants` container's variants. -/
def variantsShapeOk (kvs : List (String × Json)) : Bool :=
  match jlookup kvs "variants" with
  | some (.obj v) => (v.map (fun kv => kv.2)).all variantOkB
  | _ => true

/-- No explicit header version tag: header absent, or a dict without a
`"version"` key. -/
def headerVersionAbsent (data : List (String × Json)) : Bool :=
  match jlookup data "header" with
  | none => true
  | some (.obj hh) => (jlookup hh "version").isNone
  | some _ => false

/-- Well-shaped payload: absent, or a dict whose four recognized container
keys map to dicts and whose variants have dict path tables. -/
def payloadWellShaped (data : List (String × Json)) : Bool :=
  match jlookup data "payload" with
  | none => true
  | some (.obj kvs) =>
    containerOk kvs "rpms" && containerOk kvs "images" && containerOk kvs "extra_files" &&
      containerOk kvs "variants" && variantsShapeOk kvs
  | some _ => false

theorem checkKeyedDict_ok (kvs : List (String × Json)) (k : String) (f : Json → Bool)
    (hok : containerOk kvs k = true) :
    checkKeyedDict k f (.obj kvs) = .ok (specContainerHas kvs k f) := by
  unfold checkKeyedDict specContainerHas
  have hm : pyMem k (.obj kvs) = .ok ((jlookup kvs k).isSome) := by
    show Except.ok (kvs.any (fun kv => kv.1 == k)) = _
    rw [keyMem_eq_isSome]
  rw [hm]
  unfold containerOk at hok
  cases hl : jlookup kvs k with
  | none => rfl
  | some v =>
    cases v with
    | obj r =>
      show (match pyGetItem k (.obj kvs) with
            | .error e => (.error e : Except PyErr Bool)
            | .ok w =>
              match pyValues w with
              | .error e => .error e
              | .ok vs => .ok (vs.any f)) = _
      rw [pyGetItem_of_jlookup kvs k _ hl]
      rfl
    | null => rw [hl] at hok; simp at hok
    | bool b => rw [hl] at hok; simp at hok
    | num n => rw [hl] at hok; simp at hok
    | str t => rw [hl] at hok; simp at hok
    | arr xs => rw [hl] at hok; simp at hok

theorem variantsHasUrl_ok (vs : List Json) (hok : vs.all variantOkB = true) :
    variantsHasUrl vs = .ok (vs.any variantHasPathUrl) := by
  induction vs with
  | nil => rfl
  | cons v rest ih =>
    rw [List.all_cons, Bool.and_eq_true] at hok
    obtain ⟨hv, hrest⟩ := hok
    have ihr := ih hrest
    cases v with
    | obj vkvs =>
      have hv' : (match jlookup vkvs "paths" with
                  | none => true
                  | some (Json.obj _) => true
                  | some _ => false) = true := hv
      have hany : (Json.obj vkvs :: rest).any variantHasPathUrl =
          ((match jlookup vkvs "paths" with
            | some (Json.obj pv) => (pv.map (fun kv => kv.2)).any pathTypeHasUrl
            | _ => false) || rest.any variantHasPathUrl) := rfl
      rw [hany]
      show (match jlookup vkvs "paths" with
            | some paths =>
              (match pyValues paths with
               | .error e => (.error e : Except PyErr Bool)
               | .ok pvals =>
                 if pvals.any pathTypeHasUrl then .ok true else variantsHasUrl rest)
            | none => variantsHasUrl rest) = _
      cases hp : jlookup vkvs "paths" with
      | none =>
        rw [ihr]
        rfl
      | some paths =>
        cases paths with
        | obj pv =>
          show (if (pv.map (fun kv => kv.2)).any pathTypeHasUrl then (.ok true : Except PyErr Bool)
                else variantsHasUrl rest) = _
          cases hb : (pv.map (fun kv => kv.2)).any pathTypeHasUrl with
          | true => simp [hb]
          | false => simp [hb, ihr]
        | null => rw [hp] at hv'; simp at hv'
        | bool b => rw [hp] at hv'; simp at hv'
        | num n => rw [hp] at hv'; simp at hv'
        | str t => rw [hp] at hv'; simp at hv'
        | arr xs => rw [hp] at hv'; simp at hv'
    | null => rw [show variantsHasUrl (Json.null :: rest) = variantsHasUrl rest from rfl, ihr]; rfl
    | bool b => rw [show variantsHasUrl (Json.bool b :: rest) = variantsHasUrl rest from rfl, ihr]; rfl
    | num n => rw [show variantsHasUrl (Json.num n :: rest) = variantsHasUrl rest from rfl, ihr]; rfl
    | str t => rw [show variantsHasUrl (Json.str t :: rest) = variantsHasUrl rest from rfl, ihr]; rfl
    | arr xs => rw [show variantsHasUrl (Json.arr xs :: rest) = variantsHasUrl rest from rfl, ihr]; rfl

theorem checkVariants_ok (kvs : List (String × Json))
    (hok : containerOk kvs "variants" = true) (hvs : variantsShapeOk kvs = true) :
    checkVariants (.obj kvs) = .ok (specContainerHas kvs "variants" variantHasPathUrl) := by
  unfold checkVariants specContainerHas
  have hm : pyMem "variants" (.obj kvs) = .ok ((jlookup kvs "variants").isSome) := by
    show Except.ok (kvs.any (fun kv => kv.1 == "variants")) = _
    rw [keyMem_eq_isSome]
  rw [hm]
  unfold containerOk at hok
  unfold variantsShapeOk at hvs
  cases hl : jlookup kvs "variants" with
  | none => rfl
  | some v =>
    rw [hl] at hok hvs
    cases v with
    | obj r =>
      show (match pyGetItem "variants" (.obj kvs) with
            | .error e => (.error e : Except PyErr Bool)
            | .ok w =>
              match pyValues w with
              | .error e => .error e
              | .ok vs => variantsHasUrl vs) = _
      rw [pyGetItem_of_jlookup kvs "variants" _ hl]
      show variantsHasUrl (r.map (fun kv => kv.2)) = _
      rw [variantsHasUrl_ok _ hvs]
    | null => simp at hok
    | bool b => simp at hok
    | num n => simp at hok
    | str t => simp at hok
    | arr xs => simp at hok

theorem has_location_in_payload_ok (kvs : List (String × Json))
    (h1 : containerOk kvs "rpms" = true) (h2 : containerOk kvs "images" = true)
    (h3 : containerOk kvs "extra_files" = true) (h4 : containerOk kvs "variants" = true)
    (h5 : variantsShapeOk kvs = true) :
    has_location_in_payload (.obj kvs) = .ok (specLocationMarker kvs) := by
  unfold has_location_in_payload specLocationMarker
  rw [checkKeyedDict_ok kvs "rpms" _ h1]
  cases hb1 : specContainerHas kvs "rpms" variantHasLocationRpms with
  | true => simp [hb1]
  | false =>
    rw [checkKeyedDict_ok kvs "images" _ h2]
    cases hb2 : specContainerHas kvs "images" variantHasLocationImages with
    | true => simp [hb2]
    | false =>
      rw [checkKeyedDict_ok kvs "extra_files" _ h3]
      cases hb3 : specContainerHas kvs "extra_files" variantHasLocationImages with
      | true => simp [hb3]
      | false =>
        rw [checkVariants_ok kvs h4 h5]
        rfl

theorem legacyKeyCheck_obj (kvs : List (String × Json)) :
    legacyKeyCheck (.obj kvs) = .ok (specLegacyKeys kvs) := by
  unfold legacyKeyCheck specLegacyKeys
  cases hr : kvs.any (fun kv => kv.1 == "rpms") with
  | true =>
    show (match Except.ok (kvs.any (fun kv => kv.1 == "rpms")) with
          | .error e => (.error e : Except PyErr Bool)
          | .ok true => .ok true
          | .ok false =>
            match pyMem "images" (.obj kvs) with
            | .error e => .error e
            | .ok true => .ok true
            | .ok false => pyMem "compose" (.obj kvs)) = _
    rw [hr]
    simp [hr]
  | false =>
    show (match Except.ok (kvs.any (fun kv => kv.1 == "rpms")) with
          | .error e => (.error e : Except PyErr Bool)
          | .ok true => .ok true
          | .ok false =>
            match pyMem "images" (.obj kvs) with
            | .error e => .error e
            | .ok true => .ok true
            | .ok false => pyMem "compose" (.obj kvs)) = _
    rw [hr]
    cases hi : kvs.any (fun kv => kv.1 == "images") with
    | true =>
      show (match Except.ok (kvs.any (fun kv => kv.1 == "images")) with
            | .error e => (.error e : Except PyErr Bool)
            | .ok true => .ok true
            | .ok false => pyMem "compose" (.obj kvs)) = _
      rw [hi]
      simp [hr, hi]
    | false =>
      show (match Except.ok (kvs.any (fun kv => kv.1 == "images")) with
            | .error e => (.error e : Except PyErr Bool)
            | .ok true => .ok true
            | .ok false => pyMem "compose" (.obj kvs)) = _
      rw [hi]
      show Except.ok (kvs.any (fun kv => kv.1 == "compose")) = _
      simp [hr, hi]

/-- C2 amended: without an explicit header version tag, and provided the
payload (when present) is a dict whose `rpms`/`images`/`extra_files`/
`variants` values (when present) are dicts and whose variants carry dict
path tables, the detector returns `(2, 0)` exactly when a location marker
is present, else `(1, 0)` exactly when a legacy container key is present,
else the indeterminate-version `ValueError` — never a silent default.  (On
ill-shaped payloads the code instead crashes with `AttributeError` or
`TypeError`; see the counterexample.) -/
theorem detect_structural_inference (data : List (String × Json))
    (hhdr : headerVersionAbsent data = true)
    (hws : payloadWellShaped data = true) :
    detect_version_from_data data =
      (match jlookup data "payload" with
       | some (.obj kvs) =>
         if specLocationMarker kvs then .ok VERSION_2_0
         else if specLegacyKeys kvs then .ok VERSION_1_0
         else .error (.valueError "Cannot determine metadata version from data")
       | _ => .error (.valueError "Cannot determine metadata version from data")) := by
  have hstep : detect_version_from_data data = detectFromPayload data := by
    unfold detect_version_from_data
    unfold headerVersionAbsent at hhdr
    cases hh : jlookup data "header" with
    | none => rfl
    | some hd =>
      rw [hh] at hhdr
      cases hd with
      | obj hh2 =>
        have hhdr' : (jlookup hh2 "version").isNone = true := hhdr
        have hm : pyMem "version" (Json.obj hh2) = .ok false := by
          show Except.ok (hh2.any (fun kv => kv.1 == "version")) = _
          rw [keyMem_eq_isSome]
          cases hjl : jlookup hh2 "version" with
          | none => rfl
          | some w => rw [hjl] at hhdr'; simp at hhdr'
        show (match pyMem "version" (Json.obj hh2) with
              | .error e => (.error e : Except PyErr Version)
              | .ok true =>
                (match pyGetItem "version" (Json.obj hh2) with
                 | .error e => .error e
                 | .ok v => pyStringToVersion v)
              | .ok false => detectFromPayload data) = detectFromPayload data
        rw [hm]
      | null => simp at hhdr
      | bool b => simp at hhdr
      | num n => simp at hhdr
      | str t => simp at hhdr
      | arr xs => simp at hhdr
  rw [hstep]
  unfold detectFromPayload
  unfold payloadWellShaped at hws
  cases hp : jlookup data "payload" with
  | none => rfl
  | some payload =>
    rw [hp] at hws
    cases payload with
    | obj kvs =>
      simp only [Bool.and_eq_true] at hws
      obtain ⟨⟨⟨⟨h1, h2⟩, h3⟩, h4⟩, h5⟩ := hws
      show (match has_location_in_payload (Json.obj kvs) with
            | .error e => (.error e : Except PyErr Version)
            | .ok true => .ok VERSION_2_0
            | .ok false =>
              match legacyKeyCheck (Json.obj kvs) with
              | .error e => .error e
              | .ok true => .ok VERSION_1_0
              | .ok false => .error (.valueError "Cannot determine metadata version from data"))
          = (if specLocationMarker kvs then .ok VERSION_2_0
             else if specLegacyKeys kvs then .ok VERSION_1_0
             else .error (.valueError "Cannot determine metadata version from data"))
      rw [has_location_in_payload_ok kvs h1 h2 h3 h4 h5]
      cases hloc : specLocationMarker kvs with
      | true => simp [hloc]
      | false =>
        show (match legacyKeyCheck (Json.obj kvs) with
              | .error e => (.error e : Except PyErr Version)
              | .ok true => .ok VERSION_1_0
              | .ok false => .error (.valueError "Cannot determine metadata version from data"))
            = _
        rw [legacyKeyCheck_obj kvs]
        cases hleg : specLegacyKeys kvs with
        | true => simp [hloc, hleg]
        | false => simp [hloc, hleg]
    | null => simp at hws
    | bool b => simp at hws
    | num n => simp at hws
    | str t => simp at hws
    | arr xs => simp at hws

/-- C2 witness: a legacy payload with `compose` and `rpms` containers and
no location markers detects as `(1, 0)`. -/
theorem detect_structural_inference_witness :
    detect_version_from_data [("payload", Json.obj [("compose", Json.obj []), ("rpms", Json.obj [])])]
      = .ok VERSION_1_0 :=
  (detect_structural_inference
    [("payload", Json.obj [("compose", Json.obj []), ("rpms", Json.obj [])])]
    (by decide) (by decide)).trans (by decide)

/-- C2 counterexample: the document `{"payload": {"rpms": 5}}` has no
header version tag, carries the recognizable legacy container key `rpms`,
and holds no location marker, so the claim requires the detector to return
`(1, 0)` (or, at best, the indeterminate-version error); the code instead
raises `AttributeError` from `payload["rpms"].values()` — neither outcome
the claim allows. -/
theorem detect_rpms_nondict_crashes :
    specLegacyKeys [("rpms", Json.num 5)] = true ∧
    specLocationMarker [("rpms", Json.num 5)] = false ∧
    detect_version_from_data [("payload", Json.obj [("rpms", Json.num 5)])]
      = .error (.attributeError "values") ∧
    detect_version_from_data [("payload", Json.obj [("rpms", Json.num 5)])] ≠ .ok VERSION_1_0 ∧
    detect_version_from_data [("payload", Json.obj [("rpms", Json.num 5)])]
      ≠ .error (.valueError "Cannot determine metadata version from data") := by
  refine ⟨rfl, rfl, rfl, by decide, by decide⟩

/-- C8 witness: a three-character hex digest is accepted for `sha512`. -/
theorem parse_checksum_accepts_any_hex_length_witness :
    parse_checksum ("sha512" ++ ":" ++ "abc") = .ok ("sha512", "abc") :=
  parse_checksum_accepts_any_hex_length "sha512" "abc" (by decide) (by decide) (by decide)
example : string_to_version "1.2.7" = .ok (1, 2) := rfl
example : string_to_version "2" = .error (.valueError "Invalid version string: 2") := rfl
example : string_to_version "a.b" = .error (.valueError "Invalid version string: a.b") := rfl
example : pyIntOfString " 10 " = .ok 10 := rfl
example : pyIntOfString "1_0" = .ok 10 := rfl
example : pyIntOfString "1__0" = .error (.valueError "invalid literal for int: 1__0") := rfl
example : supports_location_objects (1, 2) = false := rfl
example : supports_location_objects (2, 0) = true := rfl
example : supports_location_objects (2, 5) = true := rfl
